import Mathlib

/-!
Verification of the nongbu financial-news scraping pipeline.

This file gives a shallow embedding, in Lean 4, of the core pipeline of the
repository (`advanced_scraper.py` and the dedup gate of
`src/xtweet/scraper.py`): text is `List Char` (one entry per Unicode code
point, matching Python `str` indexing and `len`), machine-level byte values
are `Nat` with explicit `% 2^w` reductions, and each exception-or-value
outcome is an `Option`/`Except`.  External library calls made by the code
(`hashlib.sha256`, `re.search`, Python `in` on strings, `str.lower`) are
embedded as executable Lean functions implementing their documented
behaviour (ASCII range for case folding and character classes, which covers
every character class used by the patterns of the program).

Definitions come first, theorems afterwards.
-/

/-! ## Basic text utilities (Python `str` operations on `List Char`) -/

/-- Python `str.lower` restricted to its ASCII action: map `A`-`Z` to
`a`-`z`, leave everything else unchanged. -/
def lowerChar (c : Char) : Char :=
  if 65 ≤ c.toNat ∧ c.toNat ≤ 90 then Char.ofNat (c.toNat + 32) else c

/-- `text.lower()` on a code-point list. -/
def lowerText (s : List Char) : List Char := s.map lowerChar

/-- Python `needle in haystack` on strings: substring containment. -/
def containsSub (needle haystack : List Char) : Bool :=
  haystack.tails.any (fun t => needle.isPrefixOf t)

/-- Python `s.startswith(p)`. -/
def startsWithText (p s : List Char) : Bool := p.isPrefixOf s

/-! ## UTF-8 encoding (the Python UTF-8 `str.encode`) -/

/-- UTF-8 encoding of a single Unicode scalar value, as byte values. -/
def utf8EncodeCharNat (n : Nat) : List Nat :=
  if n < 128 then [n]
  else if n < 2048 then [192 + n / 64, 128 + n % 64]
  else if n < 65536 then [224 + n / 4096, 128 + (n / 64) % 64, 128 + n % 64]
  else [240 + n / 262144, 128 + (n / 4096) % 64, 128 + (n / 64) % 64, 128 + n % 64]

/-- UTF-8 encoding of a text: the byte sequence the Python UTF-8
encode of the text produces. -/
def utf8Encode (s : List Char) : List Nat :=
  s.foldr (fun c acc => utf8EncodeCharNat c.toNat ++ acc) []

/-! ## SHA-256 (Python `hashlib.sha256(...).hexdigest()`)

A direct, executable transcription of FIPS 180-4: all words are `Nat`
reduced modulo `2^32`. -/

/-- Truncation to a 32-bit word. -/
def w32 (n : Nat) : Nat := n % 4294967296

/-- Right rotation of a 32-bit word by `n` bits. -/
def rotr32 (n x : Nat) : Nat := w32 ((x >>> n) ||| (x <<< (32 - n)))

/-- SHA-256 small sigma 0. -/
def ssig0 (x : Nat) : Nat := (rotr32 7 x) ^^^ (rotr32 18 x) ^^^ (x >>> 3)

/-- SHA-256 small sigma 1. -/
def ssig1 (x : Nat) : Nat := (rotr32 17 x) ^^^ (rotr32 19 x) ^^^ (x >>> 10)

/-- SHA-256 big Sigma 0. -/
def bsig0 (x : Nat) : Nat := (rotr32 2 x) ^^^ (rotr32 13 x) ^^^ (rotr32 22 x)

/-- SHA-256 big Sigma 1. -/
def bsig1 (x : Nat) : Nat := (rotr32 6 x) ^^^ (rotr32 11 x) ^^^ (rotr32 25 x)

/-- SHA-256 choice function; `¬x` is realised as `x ^^^ 0xffffffff`. -/
def sha2ch (x y z : Nat) : Nat := (x &&& y) ^^^ ((x ^^^ 4294967295) &&& z)

/-- SHA-256 majority function. -/
def sha2maj (x y z : Nat) : Nat := (x &&& y) ^^^ (x &&& z) ^^^ (y &&& z)

/-- The 64 SHA-256 round constants. -/
def sha2K : List Nat :=
  [1116352408, 1899447441, 3049323471, 3921009573, 961987163,
   1508970993, 2453635748, 2870763221, 3624381080, 310598401,
   607225278, 1426881987, 1925078388, 2162078206, 2614888103,
   3248222580, 3835390401, 4022224774, 264347078, 604807628,
   770255983, 1249150122, 1555081692, 1996064986, 2554220882,
   2821834349, 2952996808, 3210313671, 3336571891, 3584528711,
   113926993, 338241895, 666307205, 773529912, 1294757372,
   1396182291, 1695183700, 1986661051, 2177026350, 2456956037,
   2730485921, 2820302411, 3259730800, 3345764771, 3516065817,
   3600352804, 4094571909, 275423344, 430227734, 506948616,
   659060556, 883997877, 958139571, 1322822218, 1537002063,
   1747873779, 1955562222, 2024104815, 2227730452, 2361852424,
   2428436474, 2756734187, 3204031479, 3329325298]

/-- The eight bytes of the big-endian 64-bit length field. -/
def lenBytes64 (n : Nat) : List Nat :=
  [(n >>> 56) % 256, (n >>> 48) % 256, (n >>> 40) % 256, (n >>> 32) % 256,
   (n >>> 24) % 256, (n >>> 16) % 256, (n >>> 8) % 256, n % 256]

/-- SHA-256 padding: append `0x80`, zero bytes up to 56 mod 64, then the
bit length as a big-endian 64-bit field. -/
def sha2Pad (msg : List Nat) : List Nat :=
  msg ++ [128] ++ List.replicate ((119 - msg.length % 64) % 64) 0 ++
    lenBytes64 (8 * msg.length)

/-- Assemble big-endian 32-bit words from a byte list. -/
def bytesToWords : List Nat → List Nat
  | a :: b :: c :: d :: rest => (((a * 256 + b) * 256 + c) * 256 + d) :: bytesToWords rest
  | _ => []

/-- One step of the SHA-256 message-schedule extension, appended at the
end of the word list. -/
def schedStep (ws : List Nat) : List Nat :=
  ws ++ [w32 (ssig1 (ws.getD (ws.length - 2) 0) + ws.getD (ws.length - 7) 0 +
              ssig0 (ws.getD (ws.length - 15) 0) + ws.getD (ws.length - 16) 0)]

/-- Extend the 16 block words by `n` further schedule words. -/
def schedExtend : Nat → List Nat → List Nat
  | 0, ws => ws
  | n + 1, ws => schedExtend n (schedStep ws)

/-- The eight SHA-256 working variables. -/
structure Sha2St where
  a : Nat
  b : Nat
  c : Nat
  d : Nat
  e : Nat
  f : Nat
  g : Nat
  h : Nat

/-- The SHA-256 initial hash value. -/
def sha2Init : Sha2St :=
  ⟨1779033703, 3144134277, 1013904242, 2773480762,
   1359893119, 2600822924, 528734635, 1541459225⟩

/-- One SHA-256 compression round with round constant `k` and schedule
word `w`. -/
def sha2Round (st : Sha2St) (kw : Nat × Nat) : Sha2St :=
  let t1 := w32 (st.h + bsig1 st.e + sha2ch st.e st.f st.g + kw.1 + kw.2)
  let t2 := w32 (bsig0 st.a + sha2maj st.a st.b st.c)
  ⟨w32 (t1 + t2), st.a, st.b, st.c, w32 (st.d + t1), st.e, st.f, st.g⟩

/-- Compress one 64-byte block into the running hash state. -/
def sha2Block (st : Sha2St) (block : List Nat) : Sha2St :=
  let ws := schedExtend 48 (bytesToWords block)
  let r := (sha2K.zip ws).foldl sha2Round st
  ⟨w32 (st.a + r.a), w32 (st.b + r.b), w32 (st.c + r.c), w32 (st.d + r.d),
   w32 (st.e + r.e), w32 (st.f + r.f), w32 (st.g + r.g), w32 (st.h + r.h)⟩

/-- Process `n` successive 64-byte blocks. -/
def sha2Blocks : Nat → Sha2St → List Nat → Sha2St
  | 0, st, _ => st
  | n + 1, st, bytes => sha2Blocks n (sha2Block st (bytes.take 64)) (bytes.drop 64)

/-- SHA-256 of a byte list, as the eight 32-bit digest words. -/
def sha256Words (msg : List Nat) : List Nat :=
  let p := sha2Pad msg
  let st := sha2Blocks (p.length / 64) sha2Init p
  [st.a, st.b, st.c, st.d, st.e, st.f, st.g, st.h]

/-- A hexadecimal digit character (lowercase, as `hexdigest` emits). -/
def hexDigit (n : Nat) : Char :=
  Char.ofNat (if n < 10 then 48 + n else 87 + n)

/-- The eight hex characters of a 32-bit word, most significant first. -/
def wordHex (x : Nat) : List Char :=
  [hexDigit ((x >>> 28) % 16), hexDigit ((x >>> 24) % 16),
   hexDigit ((x >>> 20) % 16), hexDigit ((x >>> 16) % 16),
   hexDigit ((x >>> 12) % 16), hexDigit ((x >>> 8) % 16),
   hexDigit ((x >>> 4) % 16), hexDigit (x % 16)]

/-- `hashlib.sha256(bytes).hexdigest()`: the 64-character lowercase hex
digest. -/
def sha256Hex (msg : List Nat) : List Char :=
  (sha256Words msg).foldr (fun word acc => wordHex word ++ acc) []

/-! ## A small regular-expression engine (Python `re.search`)

The patterns of the program use only: literal characters, the classes `\d` and
`\s` (taken in their ASCII range, as all scanned text is ASCII), bounded
repetition `{n}`, `+`, `*`, optional groups `(?:...)?` and alternation
`(?:a|b|c)`.  `Pat` covers exactly this fragment; repetition operators are
restricted to character classes because that is the only way the
patterns of the program use them. -/

inductive Pat where
  /-- A literal character. -/
  | lit : Char → Pat
  /-- A single character drawn from a class. -/
  | cls : (Char → Bool) → Pat
  /-- Exactly `n` characters from a class (`\d{4}`). -/
  | rep : (Char → Bool) → Nat → Pat
  /-- One or more characters from a class (`\d+`). -/
  | plus : (Char → Bool) → Pat
  /-- Zero or more characters from a class (`\s*`). -/
  | star : (Char → Bool) → Pat
  /-- An optional group (`(?:...)?`). -/
  | opt : List Pat → Pat
  /-- Alternation of two branches (`(?:a|b)`). -/
  | alt2 : List Pat → List Pat → Pat

mutual

/-- Termination weight of one pattern item. -/
def pweight : Pat → Nat
  | .lit _ => 1
  | .cls _ => 1
  | .rep _ _ => 1
  | .plus _ => 1
  | .star _ => 1
  | .opt q => 1 + lweight q
  | .alt2 a b => 1 + lweight a + lweight b

/-- Termination weight of a pattern sequence. -/
def lweight : List Pat → Nat
  | [] => 0
  | p :: ps => pweight p + lweight ps

end

/-- Does the pattern sequence match some prefix of the text?  A complete
backtracking matcher for the `Pat` fragment, structurally recursive on a
fuel counter so that every equation is kernel-reducible.  Each step
consumes one unit of fuel while the measure `s.length + lweight pats`
drops by at least one (an `opt`/`alt2` item is replaced by its strictly
lighter body, every other step shortens the text), so a run started by
`matchPats` with fuel `s.length + lweight pats + 1` keeps `fuel >
measure` invariant and can never reach the fuel-exhausted `false`
equation. -/
def matchPatsF : Nat → List Pat → List Char → Bool
  | 0, _, _ => false
  | _ + 1, [], _ => true
  | fuel + 1, .lit c :: ps, d :: s2 => c == d && matchPatsF fuel ps s2
  | _ + 1, .lit _ :: _, [] => false
  | fuel + 1, .cls f :: ps, d :: s2 => f d && matchPatsF fuel ps s2
  | _ + 1, .cls _ :: _, [] => false
  | fuel + 1, .rep _ 0 :: ps, s2 => matchPatsF fuel ps s2
  | fuel + 1, .rep f (n + 1) :: ps, d :: s2 => f d && matchPatsF fuel (.rep f n :: ps) s2
  | _ + 1, .rep _ (_ + 1) :: _, [] => false
  | fuel + 1, .plus f :: ps, d :: s2 =>
      f d && (matchPatsF fuel ps s2 || matchPatsF fuel (.plus f :: ps) s2)
  | _ + 1, .plus _ :: _, [] => false
  | fuel + 1, .star f :: ps, s2 =>
      matchPatsF fuel ps s2 ||
        (match s2 with
         | [] => false
         | d :: s3 => f d && matchPatsF fuel (.star f :: ps) s3)
  | fuel + 1, .opt q :: ps, s2 => matchPatsF fuel ps s2 || matchPatsF fuel (q ++ ps) s2
  | fuel + 1, .alt2 a b :: ps, s2 => matchPatsF fuel (a ++ ps) s2 || matchPatsF fuel (b ++ ps) s2

/-- Matching with adequate fuel (see `matchPatsF`). -/
def matchPats (pats : List Pat) (s : List Char) : Bool :=
  matchPatsF (s.length + lweight pats + 1) pats s

/-- Python `re.search(pattern, text) is not None`: the pattern matches at
some position of the text. -/
def reSearch (pats : List Pat) (s : List Char) : Bool :=
  s.tails.any (fun t => matchPats pats t)

/-- Python `\d` on ASCII text. -/
def isDigitCh (c : Char) : Bool := 48 ≤ c.toNat && c.toNat ≤ 57

/-- Python `\s` on ASCII text: space, tab, newline, carriage return,
vertical tab, form feed. -/
def isSpaceCh (c : Char) : Bool :=
  c.toNat == 32 || c.toNat == 9 || c.toNat == 10 ||
  c.toNat == 13 || c.toNat == 11 || c.toNat == 12

/-- The class `[1-4]`. -/
def isQ14 (c : Char) : Bool := 49 ≤ c.toNat && c.toNat ≤ 52

/-- A sequence of literal-character patterns. -/
def plits (s : String) : List Pat := s.data.map Pat.lit

/-- The apostrophe character (the regex escape in the AP pattern denotes a
literal apostrophe). -/
def aposCh : Char := Char.ofNat 39

/-! ## Relevance & quality filter (`AdvancedScraper.is_relevant_content`) -/

/-- The `blacklist_patterns` table of `is_relevant_content`, one entry per
Python regex, in source order. -/
def blacklist_patterns : List (List Pat) :=
  [ plits "the associated press is an independent global news organization",
    plits "founded in " ++ [Pat.rep isDigitCh 4],
    plits "remains the most trusted source",
    plits "more than half the world" ++ [Pat.lit aposCh] ++ plits "s population sees",
    plits "essential provider of the technology",
    plits "vital to the news business",
    plits "subscribe to our newsletter",
    plits "follow us on social media",
    plits "contact us for more information",
    plits "copyright " ++ [Pat.rep isDigitCh 4],
    plits "all rights reserved",
    plits "privacy policy",
    plits "terms of service",
    plits "cookie policy",
    plits "home" ++ [Pat.plus isSpaceCh] ++ plits "news" ++ [Pat.plus isSpaceCh] ++ plits "business",
    plits "breaking news",
    plits "latest news",
    plits "trending now",
    plits "click here to",
    plits "read more about",
    plits "learn more at",
    plits "visit our website" ]

/-- The module-level `FINANCIAL_KEYWORDS` dict: the keyword lists of the
seven categories, in source order (category names play no role in
scoring). -/
def FINANCIAL_KEYWORDS : List (List String) :=
  [ ["stock", "shares", "equity", "market", "trading", "nasdaq", "dow", "s&p", "russell"],
    ["apple", "tesla", "microsoft", "amazon", "google", "nvidia", "meta", "berkshire"],
    ["bitcoin", "cryptocurrency", "crypto", "ethereum", "blockchain", "defi"],
    ["federal reserve", "fed", "powell", "interest rate", "monetary policy", "fomc"],
    ["inflation", "gdp", "employment", "economic", "recession", "growth"],
    ["earnings", "revenue", "profit", "quarterly", "financial results"],
    ["trade war", "china", "tariff", "sanction", "oil", "energy"] ]

/-- The `basic_financial_terms` list of `is_relevant_content`. -/
def basic_financial_terms : List String :=
  [ "stock", "market", "price", "trade", "investment", "investor",
    "financial", "economy", "economic", "revenue", "profit", "loss",
    "nasdaq", "dow jones", "sp500", "wall street", "trading", "earnings",
    "billion", "million", "percent", "%", "shares", "ceo", "quarterly" ]

/-- The `quality_patterns` table of `is_relevant_content`: dollar amount,
percentage, ISO date, quarter — one entry per Python regex, in source
order. -/
def quality_patterns : List (List Pat) :=
  [ [Pat.lit '$', Pat.plus isDigitCh, Pat.opt [Pat.lit '.', Pat.plus isDigitCh],
     Pat.opt [Pat.star isSpaceCh,
              Pat.alt2 (plits "billion") [Pat.alt2 (plits "million") (plits "trillion")]]],
    [Pat.plus isDigitCh, Pat.opt [Pat.lit '.', Pat.plus isDigitCh], Pat.lit '%'],
    [Pat.rep isDigitCh 4, Pat.lit '-', Pat.rep isDigitCh 2, Pat.lit '-', Pat.rep isDigitCh 2],
    [Pat.lit 'q', Pat.cls isQ14, Pat.plus isSpaceCh, Pat.rep isDigitCh 4] ]

/-- `relevance_score` of `is_relevant_content`: +1 per category keyword
found in the lowered combined text (no dedup across categories), plus +1
per basic financial term found in that text. -/
def relevance_score (text : List Char) : Nat :=
  (FINANCIAL_KEYWORDS.map (fun cat => cat.countP (fun kw => containsSub kw.data text))).sum +
    basic_financial_terms.countP (fun term => containsSub term.data text)

/-- `title_score` of `is_relevant_content`: +2 per basic financial term
found in the lowered title. -/
def title_score (title : List Char) : Nat :=
  2 * basic_financial_terms.countP (fun term => containsSub term.data (lowerText title))

/-- `quality_score` of `is_relevant_content`: +1 per quality pattern that
matches somewhere in the text (at most 1 per pattern). -/
def quality_score (text : List Char) : Nat :=
  quality_patterns.countP (fun p => reSearch p text)

/-- The blacklist rejection test of `is_relevant_content`. -/
def blacklistHit (text : List Char) : Bool :=
  blacklist_patterns.any (fun p => reSearch p text)

/-- The local variable `text = (title + " " + content).lower()` of
`is_relevant_content`. -/
def relevanceText (title content : List Char) : List Char :=
  lowerText (title ++ [' '] ++ content)

/-- `AdvancedScraper.is_relevant_content(title, content)`: length check,
blacklist check, then the score threshold `final_score >= 6`, all over
`text = (title + " " + content).lower()`. -/
def is_relevant_content (title content : List Char) : Bool :=
  if content.length < 300 then false
  else if blacklistHit (relevanceText title content) then false
  else decide (6 ≤ relevance_score (relevanceText title content) +
    title_score title + quality_score (relevanceText title content))

/-! ## Multi-method extractor (`AdvancedScraper.extract_with_multiple_methods`)

Each of the five extraction methods performs network I/O; its outcome is
embedded as an `Option (List Char)`: `some text` when the method produced
text, `none` when it raised (every method body is wrapped in
`try/except`) or produced a falsy value before the length test. -/

/-- One `if content and len(content) > best_score` update step of
`extract_with_multiple_methods`, acting on the `(best_content,
best_score)` pair. -/
def considerCand (st : List Char × Nat) (cand : Option (List Char)) : List Char × Nat :=
  match cand with
  | none => st
  | some t => if !t.isEmpty && decide (st.2 < t.length) then (t, t.length) else st

/-- The `(best_content, best_score)` state after methods 1-3 (Trafilatura,
Newspaper3k, Readability). -/
def mmStage3 (m1 m2 m3 : Option (List Char)) : List Char × Nat :=
  considerCand (considerCand (considerCand ([], 0) m1) m2) m3

/-- The state after method 4 (Selenium), guarded by
`self.use_selenium and best_score < 500`. -/
def mmStage4 (use_selenium : Bool) (m1 m2 m3 m4 : Option (List Char)) : List Char × Nat :=
  if use_selenium = true ∧ (mmStage3 m1 m2 m3).2 < 500
  then considerCand (mmStage3 m1 m2 m3) m4
  else mmStage3 m1 m2 m3

/-- `AdvancedScraper.extract_with_multiple_methods`: methods 1-3, then
method 4 under its guard, then method 5 (custom BeautifulSoup) guarded by
`best_score < 300`; returns `best_content`. -/
def extract_with_multiple_methods (use_selenium : Bool)
    (m1 m2 m3 m4 m5 : Option (List Char)) : List Char :=
  (if (mmStage4 use_selenium m1 m2 m3 m4).2 < 300
   then considerCand (mmStage4 use_selenium m1 m2 m3 m4) m5
   else mmStage4 use_selenium m1 m2 m3 m4).1

/-- The selection rule stated by the spec: the leftmost candidate of
greatest character length (`[]` for the empty list); a later candidate
wins only when strictly longer. -/
def firstLongest : List (List Char) → List Char
  | [] => []
  | t :: ts => if (firstLongest ts).length > t.length then firstLongest ts else t

/-- The candidate pool the run considers: methods 1-3 always, method 4
under its Selenium-and-below-500 guard, method 5 below 300; failed
methods (`none`) contribute nothing. -/
def mmCandidates (useSel : Bool) (m1 m2 m3 m4 m5 : Option (List Char)) :
    List (List Char) :=
  ([m1, m2, m3]
    ++ (if useSel = true ∧ (mmStage3 m1 m2 m3).2 < 500 then [m4] else [])
    ++ (if (mmStage4 useSel m1 m2 m3 m4).2 < 300 then [m5] else [])).filterMap id

/-! ## DOM-heuristic fallback (`AdvancedScraper._extract_content_from_soup`)

The BeautifulSoup DOM is embedded by its observable text results:
`selTexts` lists, per body-content selector in source order, the
`get_text` results of the elements that selector matched (after the
unwanted-element removal the method performs first), and `paraTexts`
lists the stripped texts of all `p` elements of the document. -/

/-- One `if len(content) > best_length` update of the selector loop. -/
def selStep (b : List Char × Nat) (t : List Char) : List Char × Nat :=
  if b.2 < t.length then (t, t.length) else b

/-- The `(best_content, best_length)` pair after the double loop over
content selectors and their elements. -/
def selectorBest (selTexts : List (List (List Char))) : List Char × Nat :=
  selTexts.foldl (fun b elems => elems.foldl selStep b) ([], 0)

/-- `AdvancedScraper._extract_content_from_soup`: selector loop, then —
only while `best_length < 500` — the paragraph fallback joining all
paragraph texts longer than 30 characters with a newline, kept when
strictly longer than the selector best. -/
def extract_content_from_soup (selTexts : List (List (List Char)))
    (paraTexts : List (List Char)) : List Char :=
  if (selectorBest selTexts).2 < 500 then
    if (paraTexts.filter (fun p => 30 < p.length)).isEmpty then (selectorBest selTexts).1
    else
      if (selectorBest selTexts).2 <
          (List.intercalate [Char.ofNat 10] (paraTexts.filter (fun p => 30 < p.length))).length
      then List.intercalate [Char.ofNat 10] (paraTexts.filter (fun p => 30 < p.length))
      else (selectorBest selTexts).1
  else (selectorBest selTexts).1

/-! ## Link discovery (`AdvancedScraper._extract_article_links`)

A matched DOM element is embedded by the data the method reads from it:
either the element is itself an `<a>` tag (carrying its stripped text and
its `href` attribute), or it is a container whose first inner anchor —
`element.find('a')` — may or may not exist.  `href = none` also covers
the non-string-attribute case the code skips.  URL resolution
(`urljoin(base_url, href)`) is an arbitrary function `resolve`. -/

/-- An inner anchor: its stripped text and `href` attribute. -/
structure AnchorElem where
  text : List Char
  href : Option (List Char)

/-- A DOM element matched by an article selector. -/
inductive LinkElem where
  /-- The element is itself an `<a>` tag. -/
  | anchor (text : List Char) (href : Option (List Char))
  /-- The element is a container; `inner` is `element.find('a')`. -/
  | container (text : List Char) (inner : Option AnchorElem)

/-- The straight-line tail of the per-match body of
`_extract_article_links`, once `link_elem` is known to exist and `title`
and its `href` are read: skip on empty title (`not title`), missing or
empty `href` (`not href`), resolved URL not starting with `http`, or
title length outside [10, 200]; otherwise accept `(title, full_url)`. -/
def processLink (resolve : List Char → List Char) (title : List Char)
    (hrefOpt : Option (List Char)) : Option (List Char × List Char) :=
  if title.isEmpty then none
  else
    match hrefOpt with
    | none => none
    | some href =>
      if href.isEmpty then none
      else if startsWithText "http".data (resolve href) = false then none
      else if title.length < 10 ∨ 200 < title.length then none
      else some (title, resolve href)

/-- The per-match body of `_extract_article_links`: when the element is
itself an anchor, `link_elem` is the element; otherwise `link_elem =
element.find('a')` and the match is skipped when it is absent.  In both
branches the title is `element.get_text(strip=True)` — the matched
own text of the matched element.  `none` means the match is skipped. -/
def processMatch (resolve : List Char → List Char) (e : LinkElem) :
    Option (List Char × List Char) :=
  match e with
  | .anchor t h => processLink resolve t h
  | .container t (some a) => processLink resolve t a.href
  | .container _ none => none

/-- The accepted links of one selector: the body above over the first 10
matched elements (`elements[:10]`). -/
def selectorAccepted (resolve : List Char → List Char) (sel : List LinkElem) :
    List (List Char × List Char) :=
  (sel.take 10).filterMap (processMatch resolve)

/-- The selector loop with its `if links: break`: the accepted links of
the first selector that accepts at least one. -/
def firstSelectorLinks (resolve : List Char → List Char) :
    List (List LinkElem) → List (List Char × List Char)
  | [] => []
  | sel :: rest =>
    let ls := selectorAccepted resolve sel
    if ls.isEmpty then firstSelectorLinks resolve rest else ls

/-- The final dedup pass of `_extract_article_links`: keep the first
occurrence of each URL, threading the `seen` set. -/
def dedupKeepFirst : List (List Char × List Char) → List (List Char) →
    List (List Char × List Char)
  | [], _ => []
  | (t, u) :: rest, seen =>
    if u ∈ seen then dedupKeepFirst rest seen
    else (t, u) :: dedupKeepFirst rest (u :: seen)

/-- `AdvancedScraper._extract_article_links(soup, selectors, base_url)`:
first successful selector, then URL dedup preserving first-seen order. -/
def extract_article_links (resolve : List Char → List Char)
    (soup : List (List LinkElem)) : List (List Char × List Char) :=
  dedupKeepFirst (firstSelectorLinks resolve soup) []

/-! ## Dedup & persistence gate

`AdvancedScraper._scrape_target` lines 512-530: fingerprint over
the UTF-8 bytes of `article_title + content`, `SELECT COUNT(*)` on
`content_hash`, insert when absent.  `ContentScraper._save_content`
(src/xtweet/scraper.py): fingerprint over
the UTF-8 bytes of the content field alone, query on
`content_hash`, add when absent, returning whether the record is new.
The stored table is embedded as the list of its rows. -/

/-- A row of `scraped_contents`, restricted to the fields the dedup gate
reads or writes. -/
structure ScrapedRec where
  title : List Char
  content : List Char
  url : List Char
  hash : List Char

/-- The fingerprint of `AdvancedScraper._scrape_target`:
the `hashlib.sha256` hexdigest of the UTF-8 bytes of `article_title + content`. -/
def content_hash (title content : List Char) : List Char :=
  sha256Hex (utf8Encode (title ++ content))

/-- The fingerprint of `ContentScraper._save_content`:
the `hashlib.sha256` hexdigest of the UTF-8 bytes of the content field
alone — the title is not hashed. -/
def save_content_hash (content : List Char) : List Char :=
  sha256Hex (utf8Encode content)

/-- The check-then-insert of `_scrape_target`: `true` and an appended row
when the fingerprint is absent, `false` and an unchanged table otherwise. -/
def dedupStoreAdv (title content url : List Char) (db : List ScrapedRec) :
    Bool × List ScrapedRec :=
  if db.any (fun r => r.hash == content_hash title content) then (false, db)
  else (true, db ++ [⟨title, content, url, content_hash title content⟩])

/-- `ContentScraper._save_content`: same check-then-insert shape, with
the content-only fingerprint. -/
def save_content (title content url : List Char) (db : List ScrapedRec) :
    Bool × List ScrapedRec :=
  if db.any (fun r => r.hash == save_content_hash content) then (false, db)
  else (true, db ++ [⟨title, content, url, save_content_hash content⟩])

/-! ## Target orchestrator (`_scrape_target` / `scrape_all_targets`)

Extraction of one candidate is an external interaction: its outcome is
either `raises` (an exception anywhere in the loop body of a candidate,
caught by the per-candidate `try/except`) or `extracted content`. -/

/-- The outcome of processing one candidate URL. -/
inductive CandOutcome where
  | raises
  | extracted (content : List Char)

/-- The body of the per-candidate loop of `_scrape_target`, generalised
over the relevance filter and fingerprint function actually consulted:
length gate, relevance gate, dedup gate, insert.  `content.length < 100`
subsumes the `not content` half of `if not content or len(content) <
100`. -/
def processCandidateG (isRel : List Char → List Char → Bool)
    (hashFn : List Char → List Char → List Char)
    (title url : List Char) (out : CandOutcome)
    (db : List ScrapedRec) (cnt : Nat) : List ScrapedRec × Nat :=
  match out with
  | .raises => (db, cnt)
  | .extracted content =>
    if content.length < 100 then (db, cnt)
    else if !isRel title content then (db, cnt)
    else if db.any (fun r => r.hash == hashFn title content) then (db, cnt)
    else (db ++ [⟨title, content, url, hashFn title content⟩], cnt + 1)

/-- The per-candidate loop body with the actual filter and
fingerprint. -/
def processCandidate : List Char → List Char → CandOutcome →
    List ScrapedRec → Nat → List ScrapedRec × Nat :=
  processCandidateG is_relevant_content content_hash

/-- The loop of `_scrape_target` over its candidate list, threading the
table and `new_count`. -/
def candLoop (env : List Char → CandOutcome) :
    List (List Char × List Char) → List ScrapedRec → Nat → List ScrapedRec × Nat
  | [], db, cnt => (db, cnt)
  | (t, u) :: rest, db, cnt =>
    candLoop env rest (processCandidate t u (env u) db cnt).1
      (processCandidate t u (env u) db cnt).2

/-- A per-target result dict of `_scrape_target` /
`scrape_all_targets`. -/
structure TargetResult where
  target : List Char
  status : List Char
  error : Option (List Char)
  found : Nat
  new : Nat

/-- One configured target together with its external world: the landing
fetch outcome (`Except.error` = the fetch raised), the URL resolver, and
the per-candidate extraction outcomes. -/
structure TargetCfg where
  name : List Char
  landing : Except (List Char) (List (List LinkElem))
  resolve : List Char → List Char
  env : List Char → CandOutcome

/-- `AdvancedScraper._scrape_target`: failed result on a landing-fetch
exception or an empty link list; otherwise the candidate loop over the
first 3 links (`article_links[:3]`). -/
def scrape_target (cfg : TargetCfg) (db : List ScrapedRec) :
    TargetResult × List ScrapedRec :=
  match cfg.landing with
  | .error e => (⟨cfg.name, "failed".data, some e, 0, 0⟩, db)
  | .ok soup =>
    if (extract_article_links cfg.resolve soup).isEmpty then
      (⟨cfg.name, "failed".data, some "no article links found".data, 0, 0⟩, db)
    else
      (⟨cfg.name, "success".data, none, (extract_article_links cfg.resolve soup).length,
        (candLoop cfg.env ((extract_article_links cfg.resolve soup).take 3) db 0).2⟩,
       (candLoop cfg.env ((extract_article_links cfg.resolve soup).take 3) db 0).1)

/-- The run summary dict of `scrape_all_targets`. -/
structure RunResults where
  total_found : Nat
  total_new : Nat
  target_results : List TargetResult

/-- `AdvancedScraper.scrape_all_targets`: every configured target is
processed in turn; `scrape_target` is total, so the per-target
`try/except` of the original never fires in the embedding. -/
def scrape_all_targets (cfgs : List TargetCfg) (db : List ScrapedRec) :
    RunResults × List ScrapedRec :=
  match cfgs with
  | [] => (⟨0, 0, []⟩, db)
  | cfg :: rest =>
    (⟨(scrape_target cfg db).1.found +
        (scrape_all_targets rest (scrape_target cfg db).2).1.total_found,
      (scrape_target cfg db).1.new +
        (scrape_all_targets rest (scrape_target cfg db).2).1.total_new,
      (scrape_target cfg db).1 ::
        (scrape_all_targets rest (scrape_target cfg db).2).1.target_results⟩,
     (scrape_all_targets rest (scrape_target cfg db).2).2)

/-! ## Shared lemmas: the best-so-far fold picks the leftmost longest -/

theorem selStep_snd (b : List Char × Nat) (t : List Char) (hb : b.2 = b.1.length) :
    (selStep b t).2 = (selStep b t).1.length := by
  unfold selStep; split <;> simp [hb]

theorem foldSel_eq (ts : List (List Char)) (b : List Char × Nat) (hb : b.2 = b.1.length) :
    List.foldl selStep b ts =
      if b.2 < (firstLongest ts).length
      then (firstLongest ts, (firstLongest ts).length) else b := by
  induction ts generalizing b with
  | nil => simp [firstLongest]
  | cons t ts ih =>
    rw [List.foldl_cons, ih _ (selStep_snd b t hb)]
    simp only [selStep, firstLongest]
    split_ifs <;> first | rfl | omega

theorem foldSel_fst (ts : List (List Char)) :
    (List.foldl selStep ([], 0) ts).1 = firstLongest ts := by
  rw [foldSel_eq ts ([], 0) rfl]
  split_ifs with h
  · rfl
  · have h0 : (firstLongest ts).length = 0 := by omega
    rw [List.length_eq_zero] at h0
    simp [h0]

theorem foldSel_snd (ts : List (List Char)) :
    (List.foldl selStep ([], 0) ts).2 = (firstLongest ts).length := by
  rw [foldSel_eq ts ([], 0) rfl]
  split_ifs with h
  · rfl
  · omega

theorem considerCand_some (st : List Char × Nat) (t : List Char) :
    considerCand st (some t) = selStep st t := by
  cases t with
  | nil => simp [considerCand, selStep]
  | cons c cs => simp [considerCand, selStep]

theorem considerAll_eq (cs : List (Option (List Char))) (st : List Char × Nat) :
    List.foldl considerCand st cs = List.foldl selStep st (cs.filterMap id) := by
  induction cs generalizing st with
  | nil => rfl
  | cons c cs ih =>
    cases c with
    | none => simpa [considerCand] using ih st
    | some t => simp [considerCand_some, ih]

theorem mmStage3_foldl (m1 m2 m3 : Option (List Char)) :
    mmStage3 m1 m2 m3 = List.foldl considerCand ([], 0) [m1, m2, m3] := rfl

theorem mmStage4_foldl (useSel : Bool) (m1 m2 m3 m4 : Option (List Char)) :
    mmStage4 useSel m1 m2 m3 m4 =
      List.foldl considerCand ([], 0)
        ([m1, m2, m3] ++ (if useSel = true ∧ (mmStage3 m1 m2 m3).2 < 500 then [m4] else [])) := by
  unfold mmStage4
  by_cases h4 : useSel = true ∧ (mmStage3 m1 m2 m3).2 < 500
  · rw [if_pos h4, if_pos h4, List.foldl_append, ← mmStage3_foldl]
    rfl
  · rw [if_neg h4, if_neg h4, List.append_nil, ← mmStage3_foldl]

theorem mm_foldl (useSel : Bool) (m1 m2 m3 m4 m5 : Option (List Char)) :
    extract_with_multiple_methods useSel m1 m2 m3 m4 m5 =
      (List.foldl considerCand ([], 0)
        ([m1, m2, m3]
          ++ (if useSel = true ∧ (mmStage3 m1 m2 m3).2 < 500 then [m4] else [])
          ++ (if (mmStage4 useSel m1 m2 m3 m4).2 < 300 then [m5] else []))).1 := by
  unfold extract_with_multiple_methods
  rw [List.foldl_append, ← mmStage4_foldl]
  by_cases h5 : (mmStage4 useSel m1 m2 m3 m4).2 < 300
  · rw [if_pos h5, if_pos h5]
    rfl
  · rw [if_neg h5, if_neg h5]
    rfl

theorem mm_firstLongest (useSel : Bool) (m1 m2 m3 m4 m5 : Option (List Char)) :
    extract_with_multiple_methods useSel m1 m2 m3 m4 m5 =
      firstLongest (mmCandidates useSel m1 m2 m3 m4 m5) := by
  rw [mm_foldl, considerAll_eq, foldSel_fst]
  rfl

theorem considerCand_trivial (st : List Char × Nat) (c : Option (List Char))
    (h : c = none ∨ c = some []) : considerCand st c = st := by
  rcases h with h | h <;> simp [h, considerCand]

theorem selectorBest_foldl (selTexts : List (List (List Char))) :
    selectorBest selTexts = List.foldl selStep ([], 0) selTexts.flatten := by
  unfold selectorBest
  rw [List.foldl_flatten]

theorem selectorBest_fst (selTexts : List (List (List Char))) :
    (selectorBest selTexts).1 = firstLongest selTexts.flatten := by
  rw [selectorBest_foldl, foldSel_fst]

theorem selectorBest_snd (selTexts : List (List (List Char))) :
    (selectorBest selTexts).2 = (firstLongest selTexts.flatten).length := by
  rw [selectorBest_foldl, foldSel_snd]

/-! ## Claim C2 -/

/-- C2: `extract_with_multiple_methods` returns the candidate of greatest
character length among the methods that ran, ties keeping the result of
the earlier method (`firstLongest` replaces a best only when strictly
longer); the candidate of method 4 is in the pool exactly when Selenium
is enabled and the best score after methods 1-3 is below 500, and that
of method 5 exactly when the best score after method 4 is below 300 — and those best
scores are the lengths of the leftmost-longest candidates so far. -/
theorem C2_theorem (useSel : Bool) (m1 m2 m3 m4 m5 : Option (List Char)) :
    extract_with_multiple_methods useSel m1 m2 m3 m4 m5 =
      firstLongest (mmCandidates useSel m1 m2 m3 m4 m5) ∧
    (mmStage3 m1 m2 m3).2 = (firstLongest ([m1, m2, m3].filterMap id)).length ∧
    (mmStage4 useSel m1 m2 m3 m4).2 =
      (firstLongest (([m1, m2, m3]
        ++ (if useSel = true ∧ (mmStage3 m1 m2 m3).2 < 500 then [m4] else [])).filterMap id)).length :=
  ⟨mm_firstLongest useSel m1 m2 m3 m4 m5,
   by rw [mmStage3_foldl, considerAll_eq, foldSel_snd],
   by rw [mmStage4_foldl, considerAll_eq, foldSel_snd]⟩

/-! ## Claim C9 -/

/-- C9: `extract_with_multiple_methods` is total in the embedding (the
failure of each method is an `Option.none`, mirroring the per-method
`try/except`), and when every method raises or produces nothing it
returns the empty string. -/
theorem C9_theorem (useSel : Bool) (m1 m2 m3 m4 m5 : Option (List Char))
    (h1 : m1 = none ∨ m1 = some []) (h2 : m2 = none ∨ m2 = some [])
    (h3 : m3 = none ∨ m3 = some []) (h4 : m4 = none ∨ m4 = some [])
    (h5 : m5 = none ∨ m5 = some []) :
    extract_with_multiple_methods useSel m1 m2 m3 m4 m5 = [] := by
  unfold extract_with_multiple_methods mmStage4 mmStage3
  rw [considerCand_trivial _ _ h1, considerCand_trivial _ _ h2, considerCand_trivial _ _ h3,
    considerCand_trivial _ _ h4, considerCand_trivial _ _ h5]
  simp

/-- Witness for C9 at a concrete mix of raising and empty methods. -/
theorem C9_witness :
    extract_with_multiple_methods true none (some []) none (some []) none = [] :=
  C9_theorem true none (some []) none (some []) none
    (Or.inl rfl) (Or.inr rfl) (Or.inl rfl) (Or.inr rfl) (Or.inl rfl)

/-! ## Claim C5 -/

set_option maxRecDepth 40000 in
/-- C5 counterexample: a soup whose selector-based best text has 400
characters — not below 300, so by the claim the paragraph fallback must
not run — yet the code (threshold 500 at line 293) runs the fallback and
returns the 600-character paragraph text instead of the selector best. -/
theorem C5_counterexample :
    (selectorBest [[List.replicate 400 'a']]).2 = 400 ∧
    ¬ (400 : Nat) < 300 ∧
    extract_content_from_soup [[List.replicate 400 'a']] [List.replicate 600 'b'] =
      List.replicate 600 'b' ∧
    (List.replicate 600 'b' : List Char) ≠ List.replicate 400 'a' := by
  refine ⟨by decide, by decide, by decide, by decide⟩

/-- C5 (amended): the paragraph fallback runs iff the selector-based best
length is below 500 (not 300); when it runs, it joins the paragraph texts
longer than 30 characters and keeps the join only when strictly longer
than the selector best, which is the leftmost longest selector text. -/
theorem C5_theorem (selTexts : List (List (List Char))) (paraTexts : List (List Char)) :
    (500 ≤ (firstLongest selTexts.flatten).length →
      extract_content_from_soup selTexts paraTexts = firstLongest selTexts.flatten) ∧
    ((firstLongest selTexts.flatten).length < 500 →
      extract_content_from_soup selTexts paraTexts =
        (if (paraTexts.filter (fun p => 30 < p.length)).isEmpty
         then firstLongest selTexts.flatten
         else if (firstLongest selTexts.flatten).length <
             (List.intercalate [Char.ofNat 10] (paraTexts.filter (fun p => 30 < p.length))).length
           then List.intercalate [Char.ofNat 10] (paraTexts.filter (fun p => 30 < p.length))
           else firstLongest selTexts.flatten)) := by
  unfold extract_content_from_soup
  rw [selectorBest_snd, selectorBest_fst]
  constructor
  · intro h
    rw [if_neg (by omega)]
  · intro h
    rw [if_pos h]

set_option maxRecDepth 40000 in
/-- Witness for C5: the skip branch (selector best already ≥ 500
characters) and the fallback branch (no meaningful paragraphs) at
concrete inputs. -/
theorem C5_witness :
    extract_content_from_soup [[List.replicate 600 'a']] [List.replicate 700 'b'] =
      List.replicate 600 'a' ∧
    extract_content_from_soup [[List.replicate 400 'c']] [] = List.replicate 400 'c' := by
  constructor
  · have h := (C5_theorem [[List.replicate 600 'a']] [List.replicate 700 'b']).1 (by decide)
    rw [h]; decide
  · have h := (C5_theorem [[List.replicate 400 'c']] []).2 (by decide)
    rw [h]; decide

/-! ## Claim C3 -/

/-- C3: for every (title, content) pair that passes both rejection rules,
`is_relevant_content` accepts iff the relevance, title and quality scores
sum to at least 6; `relevance_score` counts category keywords (once per
category occurrence) plus generic financial terms in the lowered
title-space-content text, `title_score` counts 2 per financial term in
the lowered title, and `quality_score` counts at most 1 per quality
pattern. -/
theorem C3_theorem (title content : List Char)
    (hlen : 300 ≤ content.length)
    (hbl : blacklistHit (relevanceText title content) = false) :
    is_relevant_content title content = true ↔
      6 ≤ relevance_score (relevanceText title content) + title_score title +
        quality_score (relevanceText title content) := by
  unfold is_relevant_content
  rw [if_neg (show ¬ content.length < 300 by omega),
    if_neg (show ¬ blacklistHit (relevanceText title content) = true by simp [hbl])]
  exact decide_eq_true_iff

set_option maxRecDepth 100000 in
/-- Witness for C3 at the threshold boundary: a 321-character text with
exactly 6 scoring signals (stock and market score once as category
keywords and once as basic terms, oil and gdp once each) is accepted; the
same text without gdp has 5 signals and is rejected. -/
theorem C3_witness :
    is_relevant_content "qq".data (List.replicate 300 'q' ++ " stock market oil gdp".data) = true ∧
    is_relevant_content "qq".data (List.replicate 300 'q' ++ " stock market oil".data) = false := by
  constructor
  · exact (C3_theorem ("qq".data) (List.replicate 300 'q' ++ " stock market oil gdp".data)
      (by decide) (by decide)).mpr (by decide)
  · have h := C3_theorem ("qq".data) (List.replicate 300 'q' ++ " stock market oil".data)
      (by decide) (by decide)
    cases hb : is_relevant_content "qq".data (List.replicate 300 'q' ++ " stock market oil".data)
    · rfl
    · exact absurd (h.mp hb) (by decide)

/-! ## Claim C4 -/

/-- C4: `is_relevant_content` returns false whenever the content is
shorter than 300 characters, and whenever the lowered
title-space-content text matches a blacklist pattern, regardless of any
scores (the two rejections precede all scoring, in that order). -/
theorem C4_theorem (title content : List Char) :
    (content.length < 300 → is_relevant_content title content = false) ∧
    (blacklistHit (relevanceText title content) = true →
      is_relevant_content title content = false) := by
  constructor
  · intro h
    unfold is_relevant_content
    rw [if_pos h]
  · intro h
    unfold is_relevant_content
    by_cases hl : content.length < 300
    · rw [if_pos hl]
    · rw [if_neg hl, if_pos h]

set_option maxRecDepth 100000 in
/-- Witness for C4: a 2-character content is rejected, and a
300+-character content full of scoring signals but containing the
blacklisted phrase `privacy policy` is rejected. -/
theorem C4_witness :
    is_relevant_content "t".data "ab".data = false ∧
    is_relevant_content "qq".data
      (List.replicate 300 'q' ++ " stock market oil gdp billion ceo privacy policy".data) = false :=
  ⟨(C4_theorem ("t".data) ("ab".data)).1 (by decide),
   (C4_theorem ("qq".data)
      (List.replicate 300 'q' ++ " stock market oil gdp billion ceo privacy policy".data)).2
     (by decide)⟩

/-! ## Claim C6 -/

theorem dedupKeepFirst_nodup (ls : List (List Char × List Char)) (seen : List (List Char)) :
    ((dedupKeepFirst ls seen).map Prod.snd).Nodup ∧
    ∀ u ∈ (dedupKeepFirst ls seen).map Prod.snd, u ∉ seen := by
  induction ls generalizing seen with
  | nil => simp [dedupKeepFirst]
  | cons p rest ih =>
    obtain ⟨t, u⟩ := p
    by_cases h : u ∈ seen
    · simpa [dedupKeepFirst, h] using ih seen
    · refine ⟨?_, ?_⟩
      · simp only [dedupKeepFirst, if_neg h, List.map_cons, List.nodup_cons]
        exact ⟨fun hmem => ((ih (u :: seen)).2 u hmem) (List.mem_cons_self u seen),
          (ih (u :: seen)).1⟩
      · intro v hv
        simp only [dedupKeepFirst, if_neg h, List.map_cons, List.mem_cons] at hv
        rcases hv with hv | hv
        · subst hv; exact h
        · exact fun hvseen => ((ih (u :: seen)).2 v hv) (List.mem_cons_of_mem _ hvseen)

theorem dedupKeepFirst_sublist (ls : List (List Char × List Char)) (seen : List (List Char)) :
    List.Sublist (dedupKeepFirst ls seen) ls := by
  induction ls generalizing seen with
  | nil => simp [dedupKeepFirst]
  | cons p rest ih =>
    obtain ⟨t, u⟩ := p
    by_cases h : u ∈ seen
    · simp only [dedupKeepFirst, if_pos h]
      exact (ih seen).trans (List.sublist_cons_self _ _)
    · simp only [dedupKeepFirst, if_neg h]
      exact (ih (u :: seen)).cons₂ (t, u)

theorem dedupKeepFirst_complete (ls : List (List Char × List Char)) (seen : List (List Char))
    (u : List Char) (hu : u ∈ ls.map Prod.snd) (hs : u ∉ seen) :
    u ∈ (dedupKeepFirst ls seen).map Prod.snd := by
  induction ls generalizing seen with
  | nil => simp at hu
  | cons p rest ih =>
    obtain ⟨t, v⟩ := p
    simp only [List.map_cons, List.mem_cons] at hu
    by_cases h : v ∈ seen
    · rcases hu with hu | hu
      · exact absurd (hu ▸ h) hs
      · simp only [dedupKeepFirst, if_pos h]
        exact ih seen hu hs
    · simp only [dedupKeepFirst, if_neg h, List.map_cons, List.mem_cons]
      rcases hu with hu | hu
      · exact Or.inl hu
      · by_cases huv : u = v
        · exact Or.inl huv
        · exact Or.inr (ih (v :: seen) hu (by simp [hs, huv]))

/-- C6: the links returned by `_extract_article_links` never contain two
entries with the same URL; the first selector whose first-10 matches
yield at least one accepted link decides the result (later selectors are
not consulted), the result being the accepted list of that selector
deduplicated by URL preserving first-seen order (a sublist containing
every accepted URL); a selector that accepts nothing defers to the rest;
and when every selector accepts nothing the result is the empty list. -/
theorem C6_theorem (resolve : List Char → List Char) :
    (∀ soup : List (List LinkElem),
      ((extract_article_links resolve soup).map Prod.snd).Nodup) ∧
    (∀ sel rest, selectorAccepted resolve sel ≠ [] →
      extract_article_links resolve (sel :: rest) =
        dedupKeepFirst (selectorAccepted resolve sel) []) ∧
    (∀ sel rest rest2, selectorAccepted resolve sel ≠ [] →
      extract_article_links resolve (sel :: rest) =
        extract_article_links resolve (sel :: rest2)) ∧
    (∀ sel rest, selectorAccepted resolve sel = [] →
      extract_article_links resolve (sel :: rest) = extract_article_links resolve rest) ∧
    (∀ soup, (∀ sel ∈ soup, selectorAccepted resolve sel = []) →
      extract_article_links resolve soup = []) ∧
    (∀ soup, List.Sublist (extract_article_links resolve soup) (firstSelectorLinks resolve soup)) ∧
    (∀ soup u, u ∈ (firstSelectorLinks resolve soup).map Prod.snd →
      u ∈ (extract_article_links resolve soup).map Prod.snd) := by
  have hsel : ∀ sel rest, selectorAccepted resolve sel ≠ [] →
      firstSelectorLinks resolve (sel :: rest) = selectorAccepted resolve sel := by
    intro sel rest h
    show (if (selectorAccepted resolve sel).isEmpty then firstSelectorLinks resolve rest
      else selectorAccepted resolve sel) = selectorAccepted resolve sel
    rw [if_neg (by simpa [List.isEmpty_iff] using h)]
  have hselE : ∀ sel rest, selectorAccepted resolve sel = [] →
      firstSelectorLinks resolve (sel :: rest) = firstSelectorLinks resolve rest := by
    intro sel rest h
    show (if (selectorAccepted resolve sel).isEmpty then firstSelectorLinks resolve rest
      else selectorAccepted resolve sel) = firstSelectorLinks resolve rest
    rw [if_pos (by simpa [List.isEmpty_iff] using h)]
  refine ⟨?_, ?_, ?_, ?_, ?_, ?_, ?_⟩
  · intro soup
    exact (dedupKeepFirst_nodup (firstSelectorLinks resolve soup) []).1
  · intro sel rest h
    unfold extract_article_links
    rw [hsel sel rest h]
  · intro sel rest rest2 h
    unfold extract_article_links
    rw [hsel sel rest h, hsel sel rest2 h]
  · intro sel rest h
    unfold extract_article_links
    rw [hselE sel rest h]
  · intro soup hall
    induction soup with
    | nil => rfl
    | cons sel rest ih =>
      unfold extract_article_links
      rw [hselE sel rest (hall sel (List.mem_cons_self sel rest))]
      exact ih (fun s hs => hall s (List.mem_cons_of_mem sel hs))
  · intro soup
    exact dedupKeepFirst_sublist (firstSelectorLinks resolve soup) []
  · intro soup u hu
    exact dedupKeepFirst_complete (firstSelectorLinks resolve soup) [] u hu (by simp)

/-- Witness for C6: the second of three accepted anchors of the first
selector duplicates the first URL and is dropped, the second selector is
never consulted; and a single selector with no usable anchor yields the
empty list. -/
theorem C6_witness :
    extract_article_links id
      [[LinkElem.anchor "first headline number one".data (some "http://a/1".data),
        LinkElem.anchor "second headline number two".data (some "http://a/2".data),
        LinkElem.anchor "repeat headline number one".data (some "http://a/1".data)],
       [LinkElem.anchor "unreachable headline here".data (some "http://a/3".data)]] =
      [("first headline number one".data, "http://a/1".data),
       ("second headline number two".data, "http://a/2".data)] ∧
    extract_article_links id [[LinkElem.container "x".data none]] = [] := by
  constructor
  · have h := (C6_theorem id).2.1
      [LinkElem.anchor "first headline number one".data (some "http://a/1".data),
       LinkElem.anchor "second headline number two".data (some "http://a/2".data),
       LinkElem.anchor "repeat headline number one".data (some "http://a/1".data)]
      [[LinkElem.anchor "unreachable headline here".data (some "http://a/3".data)]]
      (by decide)
    rw [h]; decide
  · refine (C6_theorem id).2.2.2.2.1 [[LinkElem.container "x".data none]] ?_
    intro sel hs
    simp only [List.mem_singleton] at hs
    subst hs
    decide

/-! ## Claim C7 -/

/-- C7 counterexample: an accepted container match whose inner anchor has
its own distinct text — the title of the accepted entry is the text of
the container element, not the anchor text as the claim states. -/
theorem C7_counterexample :
    processMatch id (LinkElem.container "container text headline".data
      (some ⟨"inner anchor text".data, some "http://x/a".data⟩)) =
      some ("container text headline".data, "http://x/a".data) ∧
    "container text headline".data ≠ "inner anchor text".data :=
  ⟨by decide, by decide⟩

/-- C7 (amended): a match is considered only among the first 10 elements
of a selector and is skipped when no anchor is found, when the anchor
has no (or an empty) `href`, when the resolved URL does not start with
`http`, or when the text of the matched element has length outside
[10, 200]; an accepted entry is (the own text of the matched element —
which coincides with the anchor text exactly when the matched element is
itself the anchor — paired with the resolved `href`); a container match
behaves as an anchor carrying the text of the container and the `href`
of the inner anchor. -/
theorem C7_theorem (resolve : List Char → List Char) :
    (∀ t, processMatch resolve (.container t none) = none) ∧
    (∀ t a, processMatch resolve (.container t (some a)) =
      processMatch resolve (.anchor t a.href)) ∧
    (∀ t, processMatch resolve (.anchor t none) = none) ∧
    (∀ t h, startsWithText "http".data (resolve h) = false →
      processMatch resolve (.anchor t (some h)) = none) ∧
    (∀ t h, h ≠ [] → startsWithText "http".data (resolve h) = true →
      processMatch resolve (.anchor t (some h)) =
        if 10 ≤ t.length ∧ t.length ≤ 200 then some (t, resolve h) else none) ∧
    (∀ sel rest, firstSelectorLinks resolve (sel :: rest) =
      firstSelectorLinks resolve (sel.take 10 :: rest)) := by
  refine ⟨fun t => rfl, fun t a => rfl, ?_, ?_, ?_, ?_⟩
  · intro t
    cases t <;> rfl
  · intro t h hs
    show processLink resolve t (some h) = none
    cases t with
    | nil => rfl
    | cons c cs =>
      cases h with
      | nil => rfl
      | cons d ds =>
        show (if (d :: ds).isEmpty = true then none
          else if startsWithText "http".data (resolve (d :: ds)) = false then none
          else if (c :: cs).length < 10 ∨ 200 < (c :: cs).length then none
          else some (c :: cs, resolve (d :: ds))) = none
        rw [if_neg (show ¬ (d :: ds).isEmpty = true by simp), if_pos hs]
  · intro t h hne hs
    show processLink resolve t (some h) = _
    cases h with
    | nil => exact absurd rfl hne
    | cons d ds =>
      cases t with
      | nil =>
        show none = if 10 ≤ ([] : List Char).length ∧ ([] : List Char).length ≤ 200
          then some (([] : List Char), resolve (d :: ds)) else none
        rw [if_neg (show ¬ (10 ≤ ([] : List Char).length ∧ ([] : List Char).length ≤ 200)
          by simp)]
      | cons c cs =>
        show (if (d :: ds).isEmpty = true then none
          else if startsWithText "http".data (resolve (d :: ds)) = false then none
          else if (c :: cs).length < 10 ∨ 200 < (c :: cs).length then none
          else some (c :: cs, resolve (d :: ds))) =
          if 10 ≤ (c :: cs).length ∧ (c :: cs).length ≤ 200
          then some (c :: cs, resolve (d :: ds)) else none
        rw [if_neg (show ¬ (d :: ds).isEmpty = true by simp),
          if_neg (show ¬ startsWithText "http".data (resolve (d :: ds)) = false by simp [hs])]
        by_cases hb : 10 ≤ (c :: cs).length ∧ (c :: cs).length ≤ 200
        · rw [if_pos hb,
            if_neg (show ¬ ((c :: cs).length < 10 ∨ 200 < (c :: cs).length) by omega)]
        · rw [if_neg hb,
            if_pos (show (c :: cs).length < 10 ∨ 200 < (c :: cs).length by omega)]
  · intro sel rest
    have htake : selectorAccepted resolve (sel.take 10) = selectorAccepted resolve sel := by
      unfold selectorAccepted
      rw [List.take_take, Nat.min_self]
    show (if (selectorAccepted resolve sel).isEmpty then firstSelectorLinks resolve rest
        else selectorAccepted resolve sel) =
      (if (selectorAccepted resolve (sel.take 10)).isEmpty then firstSelectorLinks resolve rest
        else selectorAccepted resolve (sel.take 10))
    rw [htake]

set_option maxRecDepth 10000 in
/-- Witness for C7 at the title-length boundaries 9, 10, 200 and 201,
with a fixed resolvable `href`. -/
theorem C7_witness :
    processMatch id (LinkElem.anchor (List.replicate 10 't') (some "http://a/b".data)) =
      some (List.replicate 10 't', "http://a/b".data) ∧
    processMatch id (LinkElem.anchor (List.replicate 200 't') (some "http://a/b".data)) =
      some (List.replicate 200 't', "http://a/b".data) ∧
    processMatch id (LinkElem.anchor (List.replicate 9 't') (some "http://a/b".data)) = none ∧
    processMatch id (LinkElem.anchor (List.replicate 201 't') (some "http://a/b".data)) = none := by
  have h10 := (C7_theorem id).2.2.2.2.1 (List.replicate 10 't') "http://a/b".data
    (by decide) (by decide)
  have h200 := (C7_theorem id).2.2.2.2.1 (List.replicate 200 't') "http://a/b".data
    (by decide) (by decide)
  have h9 := (C7_theorem id).2.2.2.2.1 (List.replicate 9 't') "http://a/b".data
    (by decide) (by decide)
  have h201 := (C7_theorem id).2.2.2.2.1 (List.replicate 201 't') "http://a/b".data
    (by decide) (by decide)
  refine ⟨?_, ?_, ?_, ?_⟩
  · rw [h10, if_pos (by simp)]; rfl
  · rw [h200, if_pos (by simp)]; rfl
  · rw [h9, if_neg (by simp)]
  · rw [h201, if_neg (by simp)]

/-! ## Claim C1 -/

theorem any_hash_eq_false (db : List ScrapedRec) (h : List Char)
    (hf : ∀ r ∈ db, r.hash ≠ h) : (db.any (fun r => r.hash == h)) = false := by
  rw [List.any_eq_false]
  intro r hr
  simpa using hf r hr

set_option maxRecDepth 100000 in
/-- C1 counterexample: for the pair (title `a`, content `b`), the
fingerprint computed by `ContentScraper._save_content` is the SHA-256 of
the content alone and differs from the SHA-256 of the concatenation
`ab`, which is what the claim asserts for every stored fingerprint; the
`AdvancedScraper` fingerprint does match the claimed formula. -/
theorem C1_counterexample :
    save_content_hash "b".data ≠ sha256Hex (utf8Encode ("a".data ++ "b".data)) ∧
    content_hash "a".data "b".data = sha256Hex (utf8Encode ("a".data ++ "b".data)) :=
  ⟨by decide, rfl⟩

/-- C1 (amended): the `AdvancedScraper` fingerprint is the SHA-256 hex
digest of the UTF-8 bytes of title ++ content while the
`ContentScraper._save_content` fingerprint is the SHA-256 hex digest of
the UTF-8 bytes of the content alone; both stores, on a table without
the fingerprint, insert exactly one record and report `true`, and every
repeated store of the same pair reports `false` leaving the table
unchanged — exactly one stored record per fingerprint. -/
theorem C1_theorem (title content url : List Char) (db : List ScrapedRec)
    (hfresh : ∀ r ∈ db, r.hash ≠ content_hash title content)
    (hfreshX : ∀ r ∈ db, r.hash ≠ save_content_hash content) :
    content_hash title content = sha256Hex (utf8Encode (title ++ content)) ∧
    save_content_hash content = sha256Hex (utf8Encode content) ∧
    (dedupStoreAdv title content url db).1 = true ∧
    (dedupStoreAdv title content url (dedupStoreAdv title content url db).2).1 = false ∧
    (dedupStoreAdv title content url (dedupStoreAdv title content url db).2).2 =
      (dedupStoreAdv title content url db).2 ∧
    ((dedupStoreAdv title content url db).2.filter
      (fun r => r.hash == content_hash title content)).length = 1 ∧
    (save_content title content url db).1 = true ∧
    (save_content title content url (save_content title content url db).2).1 = false ∧
    (save_content title content url (save_content title content url db).2).2 =
      (save_content title content url db).2 ∧
    ((save_content title content url db).2.filter
      (fun r => r.hash == save_content_hash content)).length = 1 := by
  have ha := any_hash_eq_false db _ hfresh
  have hx := any_hash_eq_false db _ hfreshX
  have hd1 : dedupStoreAdv title content url db =
      (true, db ++ [⟨title, content, url, content_hash title content⟩]) := by
    unfold dedupStoreAdv
    rw [if_neg (by simp [ha])]
  have hs1 : save_content title content url db =
      (true, db ++ [⟨title, content, url, save_content_hash content⟩]) := by
    unfold save_content
    rw [if_neg (by simp [hx])]
  have hdfilter : db.filter (fun r => r.hash == content_hash title content) = [] := by
    rw [List.filter_eq_nil_iff]
    intro r hr
    simpa using hfresh r hr
  have hxfilter : db.filter (fun r => r.hash == save_content_hash content) = [] := by
    rw [List.filter_eq_nil_iff]
    intro r hr
    simpa using hfreshX r hr
  refine ⟨rfl, rfl, ?_, ?_, ?_, ?_, ?_, ?_, ?_, ?_⟩
  · rw [hd1]
  · rw [hd1]
    unfold dedupStoreAdv
    rw [if_pos (by simp)]
  · rw [hd1]
    unfold dedupStoreAdv
    rw [if_pos (by simp)]
  · rw [hd1]
    show ((db ++ ([⟨title, content, url, content_hash title content⟩] : List ScrapedRec)).filter
      (fun r => r.hash == content_hash title content)).length = 1
    rw [List.filter_append, hdfilter]
    simp
  · rw [hs1]
  · rw [hs1]
    unfold save_content
    rw [if_pos (by simp)]
  · rw [hs1]
    unfold save_content
    rw [if_pos (by simp)]
  · rw [hs1]
    show ((db ++ ([⟨title, content, url, save_content_hash content⟩] : List ScrapedRec)).filter
      (fun r => r.hash == save_content_hash content)).length = 1
    rw [List.filter_append, hxfilter]
    simp

/-- Witness for C1 on the empty table with the pair (`a`, `b`): first
store `true`, second store `false`, for both gates. -/
theorem C1_witness :
    (dedupStoreAdv "a".data "b".data "u".data []).1 = true ∧
    (dedupStoreAdv "a".data "b".data "u".data
      (dedupStoreAdv "a".data "b".data "u".data []).2).1 = false ∧
    (save_content "a".data "b".data "u".data []).1 = true ∧
    (save_content "a".data "b".data "u".data
      (save_content "a".data "b".data "u".data []).2).1 = false := by
  have h := C1_theorem ("a".data) ("b".data) ("u".data) []
    (by intro r hr; exact absurd hr (List.not_mem_nil r))
    (by intro r hr; exact absurd hr (List.not_mem_nil r))
  exact ⟨h.2.2.1, h.2.2.2.1, h.2.2.2.2.2.2.1, h.2.2.2.2.2.2.2.1⟩

/-! ## Claim C8 -/

/-- C8: a landing-fetch exception yields the per-target result
`{status: failed, error, found: 0, new: 0}` with the table untouched; an
empty discovered-link list yields the same failed shape; a candidate
whose processing raises is skipped with the loop state unchanged,
processing continuing at the next candidate; and the orchestrator
produces one per-target result for every configured target — in
particular a target whose landing fetch raises contributes its failed
result and the remaining targets are processed against the same table. -/
theorem C8_theorem :
    (∀ (cfg : TargetCfg) (db : List ScrapedRec) (e : List Char), cfg.landing = .error e →
      scrape_target cfg db = (⟨cfg.name, "failed".data, some e, 0, 0⟩, db)) ∧
    (∀ (cfg : TargetCfg) (db : List ScrapedRec) soup, cfg.landing = .ok soup →
      extract_article_links cfg.resolve soup = [] →
      scrape_target cfg db =
        (⟨cfg.name, "failed".data, some "no article links found".data, 0, 0⟩, db)) ∧
    (∀ (env : List Char → CandOutcome) (t u : List Char) rest db cnt, env u = .raises →
      candLoop env ((t, u) :: rest) db cnt = candLoop env rest db cnt) ∧
    (∀ (cfgs : List TargetCfg) (db : List ScrapedRec),
      (scrape_all_targets cfgs db).1.target_results.length = cfgs.length) ∧
    (∀ (cfg : TargetCfg) rest (db : List ScrapedRec) (e : List Char), cfg.landing = .error e →
      (scrape_all_targets (cfg :: rest) db).1.target_results =
        (⟨cfg.name, "failed".data, some e, 0, 0⟩ : TargetResult) ::
          (scrape_all_targets rest db).1.target_results) := by
  have h1 : ∀ (cfg : TargetCfg) (db : List ScrapedRec) (e : List Char), cfg.landing = .error e →
      scrape_target cfg db = (⟨cfg.name, "failed".data, some e, 0, 0⟩, db) := by
    intro cfg db e he
    unfold scrape_target
    rw [he]
  refine ⟨h1, ?_, ?_, ?_, ?_⟩
  · intro cfg db soup hs hlinks
    unfold scrape_target
    rw [hs]
    show (if (extract_article_links cfg.resolve soup).isEmpty then
        ((⟨cfg.name, "failed".data, some "no article links found".data, 0, 0⟩ : TargetResult), db)
      else
        ((⟨cfg.name, "success".data, none, (extract_article_links cfg.resolve soup).length,
          (candLoop cfg.env ((extract_article_links cfg.resolve soup).take 3) db 0).2⟩ :
            TargetResult),
         (candLoop cfg.env ((extract_article_links cfg.resolve soup).take 3) db 0).1)) = _
    rw [if_pos (by simp [hlinks])]
  · intro env t u rest db cnt he
    show candLoop env rest (processCandidate t u (env u) db cnt).1
      (processCandidate t u (env u) db cnt).2 = candLoop env rest db cnt
    rw [he]
    rfl
  · intro cfgs
    induction cfgs with
    | nil => intro db; rfl
    | cons cfg rest ih =>
      intro db
      show ((scrape_target cfg db).1 ::
        (scrape_all_targets rest (scrape_target cfg db).2).1.target_results).length =
        rest.length + 1
      rw [List.length_cons, ih]
  · intro cfg rest db e he
    show ((scrape_target cfg db).1 ::
        (scrape_all_targets rest (scrape_target cfg db).2).1.target_results) = _
    rw [h1 cfg db e he]

/-- Witness for C8: a single target whose landing fetch raises a network
error yields the failed per-target result, and the run over the
two-target list still reports one result per target. -/
theorem C8_witness :
    scrape_target ⟨"bbc business".data, .error "network error".data, id,
        fun _ => .raises⟩ [] =
      (⟨"bbc business".data, "failed".data, some "network error".data, 0, 0⟩, []) ∧
    (scrape_all_targets
      [⟨"bbc business".data, .error "network error".data, id, fun _ => .raises⟩,
       ⟨"ap news".data, .error "boom".data, id, fun _ => .raises⟩]
      []).1.target_results.length = 2 ∧
    candLoop (fun _ => .raises) [("t".data, "u".data)] [] 0 = candLoop (fun _ => .raises) [] [] 0 := by
  refine ⟨C8_theorem.1 _ [] _ rfl, C8_theorem.2.2.2.1 _ [], C8_theorem.2.2.1 _ _ _ [] [] 0 rfl⟩

/-! ## Claim C10 -/

/-- C10: a candidate whose extracted body is shorter than 100 characters
(which includes the empty body) leaves the table and the new-count
unchanged, and its processing result does not depend on the relevance
filter or on the fingerprint function at all — neither is consulted; and
every record a candidate step stores was either already present or has a
body of at least 100 characters that passed `is_relevant_content`. -/
theorem C10_theorem (title url content : List Char) (db : List ScrapedRec) (cnt : Nat)
    (hshort : content.length < 100) :
    processCandidate title url (.extracted content) db cnt = (db, cnt) ∧
    (∀ (isRel isRel2 : List Char → List Char → Bool)
       (hashFn hashFn2 : List Char → List Char → List Char),
      processCandidateG isRel hashFn title url (.extracted content) db cnt =
        processCandidateG isRel2 hashFn2 title url (.extracted content) db cnt) ∧
    (∀ out, ∀ r ∈ (processCandidate title url out db cnt).1,
      r ∈ db ∨ (100 ≤ r.content.length ∧ is_relevant_content r.title r.content = true)) := by
  refine ⟨?_, ?_, ?_⟩
  · show (if content.length < 100 then (db, cnt)
      else if (!is_relevant_content title content) = true then (db, cnt)
      else if (db.any fun r => r.hash == content_hash title content) = true then (db, cnt)
      else (db ++ ([⟨title, content, url, content_hash title content⟩] : List ScrapedRec),
        cnt + 1)) = (db, cnt)
    rw [if_pos hshort]
  · intro f f2 g g2
    show (if content.length < 100 then (db, cnt)
      else if (!f title content) = true then (db, cnt)
      else if (db.any fun r => r.hash == g title content) = true then (db, cnt)
      else (db ++ ([⟨title, content, url, g title content⟩] : List ScrapedRec), cnt + 1)) =
      (if content.length < 100 then (db, cnt)
      else if (!f2 title content) = true then (db, cnt)
      else if (db.any fun r => r.hash == g2 title content) = true then (db, cnt)
      else (db ++ ([⟨title, content, url, g2 title content⟩] : List ScrapedRec), cnt + 1))
    rw [if_pos hshort, if_pos hshort]
  · intro out
    cases out with
    | raises => intro r hr; exact Or.inl hr
    | extracted c =>
      intro r hr
      have hred : (processCandidate title url (.extracted c) db cnt).1 =
          (if c.length < 100 then (db, cnt)
            else if (!is_relevant_content title c) = true then (db, cnt)
            else if (db.any fun r => r.hash == content_hash title c) = true then (db, cnt)
            else (db ++ ([⟨title, c, url, content_hash title c⟩] : List ScrapedRec),
              cnt + 1)).1 := rfl
      rw [hred] at hr
      split_ifs at hr with hc1 hc2 hc3
      · exact Or.inl hr
      · exact Or.inl hr
      · exact Or.inl hr
      · rw [List.mem_append] at hr
        rcases hr with hr | hr
        · exact Or.inl hr
        · simp only [List.mem_singleton] at hr
          subst hr
          refine Or.inr ⟨?_, ?_⟩
          · show 100 ≤ c.length
            omega
          · show is_relevant_content title c = true
            simpa using hc2

/-- Witness for C10 at a 5-character body: the step is a no-op and two
arbitrary filter/fingerprint pairs give the same result. -/
theorem C10_witness :
    processCandidate "t".data "u".data (.extracted "short".data) [] 0 = ([], 0) ∧
    processCandidateG (fun _ _ => true) (fun _ _ => []) "t".data "u".data
        (.extracted "short".data) [] 0 =
      processCandidateG (fun _ _ => false) (fun _ _ => ['x']) "t".data "u".data
        (.extracted "short".data) [] 0 := by
  have h := C10_theorem ("t".data) ("u".data) ("short".data) [] 0 (by decide)
  exact ⟨h.1, h.2.1 _ _ _ _⟩
